import Mathlib

/-!
# Verification of the lego-bot stock checker against its specification

Shallow embedding of the core logic of `lego_checker.py`, `monitor.py` and
`database.py`.  HTML documents are modelled by the fields the code actually
inspects (the `product:availability` meta tag content, the whole-page text,
the buttons of the `add-to-bag-sticky-container`, the link hrefs, and a
selector lookup for name/price).  HTTP traffic is modelled by an oracle
giving, for each URL, the outcome of `session.get` (a response with a status
code and a parsed document, or a raised exception with a message).
-/

namespace LegoBot

/-! ## String helpers

Python's `in` operator on strings is a substring test; `str.lower`,
`str.strip` and `str.startswith` are modelled on the character list. -/

/-- `startsList pat l` is true when `pat` occurs at the head of `l`. -/
def startsList (pat l : List Char) : Bool :=
  match pat, l with
  | [], _ => true
  | _ :: _, [] => false
  | c :: cs, x :: xs => c == x && startsList cs xs

/-- `subList pat l` is true when `pat` occurs as a contiguous sublist of `l`
(Python `pat in l`). -/
def subList (pat : List Char) : List Char → Bool
  | [] => startsList pat []
  | x :: xs => startsList pat (x :: xs) || subList pat xs

/-- Python `pat in s` (substring test). -/
def strContains (s pat : String) : Bool :=
  subList pat.toList s.toList

/-- Python `\s` (vertical tab and form feed omitted; they never occur in the
texts at issue). -/
def isSpaceCh (c : Char) : Bool := c == ' ' || c == '\t' || c == '\n' || c == '\r'

/-- Python `str.lower` (ASCII case folding, per character). -/
def lowerStr (s : String) : String := String.mk (s.toList.map Char.toLower)

/-- Python `str.strip()`. -/
def pyStrip (s : String) : String :=
  String.mk (((s.toList.dropWhile isSpaceCh).reverse.dropWhile isSpaceCh).reverse)

/-- Python `s.startswith(pat)`. -/
def strStartsWith (s pat : String) : Bool := startsList pat.toList s.toList

/-! ## Stock status values

`lego_checker.py` uses the strings
`'in_stock' | 'out_of_stock' | 'pre_order' | 'unknown' | 'error'`. -/

inductive Status where
  | in_stock
  | out_of_stock
  | pre_order
  | unknown
  | error
deriving DecidableEq

/-! ## Page model -/

/-- A `<button>` element inside the add-to-bag sticky container, as read by
`_detect_button`: its visible text (`get_text(separator=' ', strip=True)`),
its `aria-label` attribute (default `''`) and its `data-test` attribute
(default `''`). -/
structure Button where
  text : String
  aria : String
  dataTest : String
deriving DecidableEq

/-- A parsed product (or search) page, restricted to the features the code
reads from the soup. -/
structure Doc where
  /-- Content of `<meta property="product:availability">`; `none` when the
  tag is absent (`soup.find` returns `None`), `some c` with the `content`
  attribute (default `''`) otherwise. -/
  metaAvailability : Option String
  /-- `soup.get_text()` over the whole document. -/
  pageText : String
  /-- Buttons of `<div data-test="add-to-bag-sticky-container">`, in document
  order; `none` when that container is absent. -/
  stickyButtons : Option (List Button)
  /-- `href` values of all `<a href=...>` elements, in document order
  (used by `_search_for_set` on the search page). -/
  links : List String
  /-- `soup.select_one(sel)` text for a CSS selector `sel`
  (`none` when no element matches), used by `_extract_set_name` and
  `_extract_price`. -/
  selOne : String → Option String

/-! ## Button detection (`_detect_button`) -/

def skipKeywords : List String := ["wishlist", "close", "cancel", "dismiss", "x"]

def purchaseKeywords : List String :=
  ["add to bag", "add to cart", "pre-order", "preorder", "buy", "purchase"]

/-- The `for button in buttons:` loop of `_detect_button`. -/
def detectLoop : List Button → Option String
  | [] => none
  | b :: rest =>
    let tL := lowerStr b.text
    let aL := lowerStr b.aria
    let dL := lowerStr b.dataTest
    if skipKeywords.any (fun k => strContains tL k || strContains aL k) then
      detectLoop rest
    else if purchaseKeywords.any (fun k => strContains tL k) ||
            purchaseKeywords.any (fun k => strContains aL k) ||
            strContains dL "add-to-cart" then
      -- `if button_text and len(button_text) > 0: return button_text`
      -- `elif button_aria: return button_aria`  (otherwise the loop continues)
      if b.text ≠ "" then some b.text
      else if b.aria ≠ "" then some b.aria
      else detectLoop rest
    else detectLoop rest

/-- `_detect_button`: only looks inside `add-to-bag-sticky-container`. -/
def detectButton (doc : Doc) : Option String :=
  match doc.stickyButtons with
  | none => none
  | some buttons =>
    if buttons.isEmpty then none
    else detectLoop buttons

/-! ## Shipping-date extraction (`_extract_shipping_date`)

The Python code uses `re.search` with the three patterns
`ship\s+from\s+([A-Za-z]+\s+\d{1,2},\s+\d{4})`,
`coming\s+soon\s+on\s+(...)` and `available\s+(...)` (all IGNORECASE), and
`_check_stock_status` additionally uses `(?:ship|ships)\s+from\s+(...)`.
The character classes of these patterns are pairwise disjoint, so greedy
matching without backtracking is equivalent; `searchPat` tries every start
position from the left, like `re.search`. -/

def isAlphaCh (c : Char) : Bool := ('a' ≤ c && c ≤ 'z') || ('A' ≤ c && c ≤ 'Z')

def isDigitCh (c : Char) : Bool := '0' ≤ c && c ≤ '9'

/-- Consume the literal word `pat`, case-insensitively. -/
def dropLit : List Char → List Char → Option (List Char)
  | [], l => some l
  | _ :: _, [] => none
  | c :: cs, x :: xs => if x.toLower == c.toLower then dropLit cs xs else none

/-- Consume `\s+`, returning the consumed run and the rest. -/
def dropSpaces1 (l : List Char) : Option (List Char × List Char) :=
  match l with
  | [] => none
  | x :: _ =>
    if isSpaceCh x then some (l.takeWhile isSpaceCh, l.dropWhile isSpaceCh)
    else none

/-- Match the capture group `[A-Za-z]+\s+\d{1,2},\s+\d{4}` at the head of
`l`, returning the matched text. -/
def matchDate (l : List Char) : Option String :=
  let word := l.takeWhile isAlphaCh
  if word.isEmpty then none else
  match dropSpaces1 (l.dropWhile isAlphaCh) with
  | none => none
  | some (sp1, r2) =>
    let ds := r2.takeWhile isDigitCh
    if ds.length == 1 || ds.length == 2 then
      match r2.dropWhile isDigitCh with
      | ',' :: r3 =>
        match dropSpaces1 r3 with
        | none => none
        | some (sp2, r4) =>
          let ys := r4.takeWhile isDigitCh
          if 4 ≤ ys.length then
            some (String.mk (word ++ sp1 ++ ds ++ [','] ++ sp2 ++ ys.take 4))
          else none
      | _ => none
    else none

/-- Match a `\s+`-separated sequence of literal words followed by
`\s+` and the date capture group. -/
def matchWordsDate (ws : List (List Char)) (l : List Char) : Option String :=
  match ws with
  | [] => matchDate l
  | w :: rest =>
    match dropLit w l with
    | none => none
    | some r1 =>
      match dropSpaces1 r1 with
      | none => none
      | some (_, r2) => matchWordsDate rest r2

/-- `re.search`: try the matcher at every start position, leftmost first. -/
def searchPat (m : List Char → Option String) : List Char → Option String
  | [] => none
  | c :: rest =>
    match m (c :: rest) with
    | some r => some r
    | none => searchPat m rest

/-- `_extract_shipping_date`: three patterns tried in order over the raw
(uncased) page text. -/
def extractShippingDate (doc : Doc) : Option String :=
  let t := doc.pageText.toList
  match searchPat (matchWordsDate ["ship".toList, "from".toList]) t with
  | some d => some ("Ships from " ++ d)
  | none =>
    match searchPat (matchWordsDate ["coming".toList, "soon".toList, "on".toList]) t with
    | some d => some ("Available " ++ d)
    | none =>
      match searchPat (matchWordsDate ["available".toList]) t with
      | some d => some ("Available " ++ d)
      | none => none

/-- The `(?:ship|ships)\s+from\s+(date)` search of `_check_stock_status`
line 401, run over the lowered page text (alternation tries `ship` first at
each position, as the regex engine does). -/
def searchShipsFrom (l : List Char) : Option String :=
  searchPat
    (fun l' =>
      match matchWordsDate ["ship".toList, "from".toList] l' with
      | some d => some d
      | none => matchWordsDate ["ships".toList, "from".toList] l') l

/-! ## The classifier (`_check_stock_status`) -/

/-- The dict returned by `_check_stock_status`. -/
structure ClassifyResult where
  available : Bool
  status : Status
  message : String
  button_detected : Option String
deriving DecidableEq

/-- The page-text fallback tiers of `_check_stock_status` (everything after
the meta-tag block), with `pageText` already lowered. -/
def textTiers (doc : Doc) (pageText : String) (button : Option String) : ClassifyResult :=
  if strContains pageText "pre-order" || strContains pageText "preorder" then
    let message :=
      match extractShippingDate doc with
      | some info => "Pre-Order - " ++ info
      | none =>
        if strContains pageText "ship from" || strContains pageText "ships from" then
          match searchShipsFrom pageText.toList with
          | some d => "Pre-Order - Ships from " ++ d
          | none => "Pre-Order Available"
        else "Pre-Order Available"
    ⟨false, .pre_order, message, button⟩
  else if strContains pageText "coming soon" then
    let message :=
      match extractShippingDate doc with
      | some info => "Coming Soon - " ++ info
      | none => "Coming Soon"
    ⟨false, .pre_order, message, button⟩
  else if strContains pageText "available now" then
    ⟨true, .in_stock, "In Stock", button⟩
  else if ["out of stock", "sold out", "unavailable", "temporarily out of stock"].any
      (fun k => strContains pageText k) then
    ⟨false, .out_of_stock, "Out of Stock", button⟩
  else if ["in stock", "add to cart", "add to bag"].any (fun k => strContains pageText k) then
    ⟨true, .in_stock, "In Stock", button⟩
  else
    ⟨false, .unknown, "Status Unknown", button⟩

/-- `_check_stock_status`: meta-tag tier first, then the page-text tiers. -/
def checkStockStatus (doc : Doc) : ClassifyResult :=
  let pageText := lowerStr doc.pageText
  let button := detectButton doc
  match doc.metaAvailability with
  | some content =>
    let c := lowerStr content
    if strContains c "in stock" || strContains c "instock" then
      ⟨true, .in_stock, "In Stock", button⟩
    else if strContains c "out of stock" || strContains c "outofstock" || strContains c "oos" then
      ⟨false, .out_of_stock, "Out of Stock", button⟩
    else if strContains c "preorder" || strContains c "pre-order" then
      let message :=
        match extractShippingDate doc with
        | some info => "Pre-Order - " ++ info
        | none => "Pre-Order Available"
      ⟨false, .pre_order, message, button⟩
    else if strContains c "backorder" then
      ⟨false, .out_of_stock, "Backorder", button⟩
    else
      textTiers doc pageText button
  | none => textTiers doc pageText button

/-! ## Name and price extraction (`_extract_set_name`, `_extract_price`) -/

def nameSelectors : List String :=
  ["h1[data-test=\"product-overview-name\"]", "h1.product-overview__name", "h1",
   "[data-test=\"product-title\"]", ".product-title"]

def priceSelectors : List String :=
  ["[data-test=\"product-price\"]", ".product-price", ".price", "[class*=\"price\"]"]

def firstName (doc : Doc) : List String → Option String
  | [] => none
  | sel :: rest =>
    match doc.selOne sel with
    | some name => if name.length > 0 then some name else firstName doc rest
    | none => firstName doc rest

def extractSetName (doc : Doc) (code : String) : String :=
  (firstName doc nameSelectors).getD ("LEGO Set " ++ code)

def firstPrice (doc : Doc) : List String → Option String
  | [] => none
  | sel :: rest =>
    match doc.selOne sel with
    | some price =>
      if price ≠ "" && (strContains price "$" || strContains price "€" || strContains price "£") then
        some price
      else firstPrice doc rest
    | none => firstPrice doc rest

def extractPrice (doc : Doc) : Option String :=
  firstPrice doc priceSelectors

/-! ## HTTP fetch model

`session.get(url)` either returns a response (status code + parsed document)
or raises (timeouts, transport errors, cloudscraper failures).  Because
`_fetch_product_page` can issue a second `get` on the same URL after
recreating the session on a 403, the oracle gives both outcomes. -/

structure Response where
  statusCode : Nat
  doc : Doc

inductive FetchOutcome where
  | resp (r : Response)
  | exn (msg : String)

structure FetchBehavior where
  /-- Outcome of `session.get(url)` on the current session. -/
  first : String → FetchOutcome
  /-- Outcome of the repeated `session.get(url)` after the 403
  session-recreation (only consulted on that path). -/
  retry : String → FetchOutcome

def getE (o : FetchOutcome) : Except String Response :=
  match o with
  | .resp r => Except.ok r
  | .exn m => Except.error m

/-- Message of the `requests.HTTPError` raised by `response.raise_for_status`
for a status code `≥ 400`; only the `"403"` / `"Forbidden"` substrings matter
downstream, so other reasons are left empty. -/
def raiseMsg (c : Nat) (url : String) : String :=
  toString c ++ (if c < 500 then " Client Error: " else " Server Error: ") ++
    (if c == 403 then "Forbidden" else "") ++ " for url: " ++ url

/-- The `try:` body of `_fetch_product_page` up to the parsed document:
get, 403-triggered session recreation + immediate retry, then
`raise_for_status`.  An `Except.error` is a raised exception. -/
def fetchPageBody (fb : FetchBehavior) (url : String) : Except String Doc := do
  -- self._rate_limit() sleeps only; it cannot raise
  let r0 ← getE (fb.first url)
  let r ←
    if r0.statusCode == 403 then
      -- recreate scraper; _initialize_session's own try/except swallows any
      -- failure of the warm-up get; then retry the same URL
      getE (fb.retry url)
    else pure r0
  if 400 ≤ r.statusCode then Except.error (raiseMsg r.statusCode url)
  else pure r.doc

/-- The dict returned by `check_stock` / `_fetch_product_page`. -/
structure StockResult where
  available : Bool
  status : Status
  set_name : String
  price : Option String
  url : String
  message : String
  button_detected : Option String
deriving DecidableEq

def errorResult (code url message : String) : StockResult :=
  { available := false, status := .error, set_name := "Set " ++ code, price := none,
    url := url, message := message, button_detected := none }

def forbiddenMessage : String :=
  "403 Forbidden: LEGO.com is blocking automated requests. Please try again later."

/-- `_fetch_product_page`: the `except Exception` handler turns every raised
exception into a returned error dict. -/
def fetchProductPage (fb : FetchBehavior) (url code : String) : StockResult :=
  match fetchPageBody fb url with
  | Except.ok doc =>
    let st := checkStockStatus doc
    { available := st.available, status := st.status,
      set_name := extractSetName doc code, price := extractPrice doc,
      url := url, message := st.message, button_detected := st.button_detected }
  | Except.error msg =>
    if strContains msg "403" || strContains msg "Forbidden" then
      errorResult code url forbiddenMessage
    else
      errorResult code url ("Error fetching product page: " ++ msg)

/-! ## Search fallback (`_search_for_set`) -/

def baseUrl : String := "https://www.lego.com"

def searchUrlOf (code : String) : String := baseUrl ++ "/en-us/search?q=" ++ code

/-- The link scan over the search page's `<a href>` elements. -/
def scanLinks (code : String) : List String → Option String
  | [] => none
  | href :: rest =>
    if strContains href "/en-us/product/" && strContains href code then
      if strStartsWith href "/" then some (baseUrl ++ href) else some href
    else scanLinks code rest

/-- The `try:` body of `_search_for_set` (no 403 retry here). -/
def searchBody (fb : FetchBehavior) (code : String) : Except String (Option String) := do
  let r ← getE (fb.first (searchUrlOf code))
  if 400 ≤ r.statusCode then Except.error (raiseMsg r.statusCode (searchUrlOf code))
  else pure (scanLinks code r.doc.links)

/-- `_search_for_set`: the handler returns `None` on any exception. -/
def searchForSet (fb : FetchBehavior) (code : String) : Option String :=
  match searchBody fb code with
  | Except.ok r => r
  | Except.error _ => none

/-! ## The orchestrator (`check_stock`)

`checkStockTraced` additionally records the URLs requested (candidate pages,
the search query, the searched product page), to state which pages were
fetched. -/

def candidate1 (code : String) : String := baseUrl ++ "/en-us/product/" ++ code

def candidate2 (code : String) : String := baseUrl ++ "/en-us/product/lego-set-" ++ code

def candidate3 (code : String) : String := baseUrl ++ "/product/" ++ code

/-- `_get_product_urls`. -/
def productUrls (code : String) : List String :=
  [candidate1 code, candidate2 code, candidate3 code]

/-- The `for product_url in urls:` loop of `check_stock`: a non-error result
returns immediately; every error result moves on to the next URL (the
explicit `continue` on a 403 message and the loop's implicit fall-through
behave identically). -/
def tryCandidates (fb : FetchBehavior) (code : String) :
    List String → Option StockResult × List String
  | [] => (none, [])
  | url :: rest =>
    let r := fetchProductPage fb url code
    if r.status ≠ .error then (some r, [url])
    else
      let p := tryCandidates fb code rest
      (p.1, url :: p.2)

/-- The final all-failed error dict of `check_stock`. -/
def fallbackError (code : String) (urls : List String) : StockResult :=
  { available := false, status := .error, set_name := "Set " ++ code, price := none,
    url := urls.headD (baseUrl ++ "/en-us/product/" ++ code),
    message := "Unable to access LEGO.com. The site may be blocking automated requests. Please try again later or check the set code.",
    button_detected := none }

/-- `check_stock`, instrumented with the list of requested URLs. -/
def checkStockTraced (fb : FetchBehavior) (setCode : String) : StockResult × List String :=
  let code := pyStrip setCode
  let urls := productUrls code
  match tryCandidates fb code urls with
  | (some r, tr) => (r, tr)
  | (none, tr) =>
    match searchForSet fb code with
    | some surl =>
      let r := fetchProductPage fb surl code
      if r.status ≠ .error then (r, tr ++ [searchUrlOf code, surl])
      else (fallbackError code urls, tr ++ [searchUrlOf code, surl])
    | none => (fallbackError code urls, tr ++ [searchUrlOf code])

def checkStock (fb : FetchBehavior) (setCode : String) : StockResult :=
  (checkStockTraced fb setCode).1

/-! ## Exception-transparent transcription of `check_stock`

`checkStockE` re-expresses the same call tree in the `Except` monad, where a
raised exception that a function does *not* handle propagates to its caller
as `Except.error`.  `check_stock` itself has no handler, so it returns
normally for every fetch behaviour exactly if `checkStockE` is always
`Except.ok` — which is what C4 asserts. -/

def fetchProductPageE (fb : FetchBehavior) (url code : String) : Except String StockResult :=
  match fetchPageBody fb url with
  | Except.ok doc =>
    let st := checkStockStatus doc
    Except.ok { available := st.available, status := st.status,
                set_name := extractSetName doc code, price := extractPrice doc,
                url := url, message := st.message, button_detected := st.button_detected }
  | Except.error msg =>
    -- except Exception as e: the handler returns an error dict, it re-raises nothing
    if strContains msg "403" || strContains msg "Forbidden" then
      Except.ok (errorResult code url forbiddenMessage)
    else
      Except.ok (errorResult code url ("Error fetching product page: " ++ msg))

def searchForSetE (fb : FetchBehavior) (code : String) : Except String (Option String) :=
  match searchBody fb code with
  | Except.ok r => Except.ok r
  | Except.error _ => Except.ok none

def tryCandidatesE (fb : FetchBehavior) (code : String) :
    List String → Except String (Option StockResult)
  | [] => Except.ok none
  | url :: rest => do
    let r ← fetchProductPageE fb url code
    if r.status ≠ .error then pure (some r)
    else tryCandidatesE fb code rest

def checkStockE (fb : FetchBehavior) (setCode : String) : Except String StockResult := do
  let code := pyStrip setCode
  let urls := productUrls code
  let c ← tryCandidatesE fb code urls
  match c with
  | some r => pure r
  | none => do
    let s ← searchForSetE fb code
    match s with
    | some surl => do
      let r ← fetchProductPageE fb surl code
      if r.status ≠ .error then pure r else pure (fallbackError code urls)
    | none => pure (fallbackError code urls)

/-! ## Poll scheduler diff rule (`monitor.py`, `_check_watch`)

The embedding keeps the decision logic: which record update is persisted and
which notifications are emitted.  Message formatting and Discord delivery
routing are out of scope (spec §1). -/

/-- A watch row as loaded by `get_all_watches`. -/
structure WatchRow where
  id : Int
  userId : Int
  guildId : Option Int
  setCode : String
  lastStatus : Option Status
  lastButton : Option String
deriving DecidableEq

/-- The `update_watch_status` call issued for the row. -/
structure PersistedUpdate where
  watchId : Int
  status : Status
  available : Bool
  button : Option String
deriving DecidableEq

inductive Notif where
  /-- `_send_notification` (status change), with old and new status. -/
  | statusChange (oldStatus newStatus : Status)
  /-- `_send_button_notification`, with old and new button. -/
  | buttonChange (oldButton newButton : Option String)
deriving DecidableEq

/-- The guard at the top of `_send_button_notification`: "Button Detected!"
when `old is None and new is not None`, "Button Changed" when
`old is not None and new != old`, otherwise `return` without sending. -/
def sendButtonNotification (old new : Option String) : List Notif :=
  match old, new with
  | none, some nb => [Notif.buttonChange none (some nb)]
  | none, none => []
  | some ob, nb => if nb ≠ some ob then [Notif.buttonChange (some ob) nb] else []

/-- `_check_watch` on one row given the `check_stock` result: persist the new
state, then decide which notification (if any) to emit. -/
def checkWatch (w : WatchRow) (result : StockResult) : PersistedUpdate × List Notif :=
  let currentStatus := result.status
  let currentButton := result.button_detected
  -- await self.db.update_watch_status(...) happens before any return below
  let persist : PersistedUpdate :=
    ⟨w.id, currentStatus, result.available, currentButton⟩
  -- status_changed = last_status is not None and last_status != current_status
  let statusChanged : Bool := w.lastStatus.isSome && w.lastStatus ≠ some currentStatus
  -- button_changed starts False and is set in the two branches of the
  -- `if last_button_detected != current_button_detected:` block
  let buttonChanged : Bool :=
    if w.lastButton ≠ currentButton then
      if w.lastButton = none && currentButton ≠ none then true
      else if w.lastButton ≠ none && currentButton ≠ w.lastButton then true
      else false
    else false
  match w.lastStatus with
  | none => (persist, [])  -- first check: record only, no notification
  | some last =>
    if statusChanged then (persist, [Notif.statusChange last currentStatus])
    else if buttonChanged then (persist, sendButtonNotification w.lastButton currentButton)
    else (persist, [])

/-! ## Watch repository (`database.py`, `add_watch`)

The `watched_sets` table is modelled by its key columns
`(user_id, guild_id, set_code)` — the only ones `add_watch` touches and the
ones the `UNIQUE` constraint covers.  SQLite semantics: in a `UNIQUE`
constraint `NULL` compares distinct from everything (so a `NULL` `guild_id`
never conflicts), and in `WHERE guild_id = ?` a `NULL` parameter matches no
row. -/

structure WatchKey where
  userId : Int
  guildId : Option Int
  setCode : String
deriving DecidableEq

/-- SQL three-valued equality on the key columns: used both by the `UNIQUE`
constraint (conflict) and by the `WHERE user_id = ? AND guild_id = ? AND
set_code = ?` count.  `user_id` and `set_code` are `NOT NULL`. -/
def sqlKeyEq (a b : WatchKey) : Bool :=
  a.userId == b.userId && a.setCode == b.setCode &&
    match a.guildId, b.guildId with
    | some x, some y => x == y
    | _, _ => false

/-- `INSERT OR IGNORE INTO watched_sets ...`. -/
def insertOrIgnore (rows : List WatchKey) (k : WatchKey) : List WatchKey :=
  if rows.any (sqlKeyEq k) then rows else rows ++ [k]

/-- `SELECT COUNT(*) FROM watched_sets WHERE user_id = ? AND guild_id = ?
AND set_code = ?`. -/
def countMatching (rows : List WatchKey) (k : WatchKey) : Nat :=
  (rows.filter (sqlKeyEq k)).length

/-- `add_watch`: insert-or-ignore, then report `COUNT(*) > 0` as the
"added successfully" boolean. -/
def addWatch (rows : List WatchKey) (userId : Int) (setCode : String)
    (guildId : Option Int) : List WatchKey × Bool :=
  let k : WatchKey := ⟨userId, guildId, setCode⟩
  let rows' := insertOrIgnore rows k
  (rows', countMatching rows' k > 0)

/-! ## Request pacing (`_rate_limit`) — timing model

Discrete time (`Nat`).  `last` is `self.last_request_time`; `_rate_limit`
sleeps until `last + delay` if needed and then records the current time —
i.e. it records the instant just *before* the upcoming request starts, not
the instant the previous request ended.  Computation between requests that
neither sleeps nor performs I/O is modelled as instantaneous. -/

structure RL where
  delay : Nat
  last : Nat

/-- `_rate_limit` called at time `now` (with a monotone clock, `now ≥ last`):
returns the time when it finishes sleeping, and the updated state. -/
def rateLimit (now : Nat) (s : RL) : Nat × RL :=
  if now < s.last + s.delay then (s.last + s.delay, ⟨s.delay, s.last + s.delay⟩)
  else (now, ⟨s.delay, now⟩)

/-- Timed request trace of `_fetch_product_page` on the path where the first
`get` returns HTTP 403: `_rate_limit`; `get url` (duration `d1`); scraper
recreation; `_initialize_session`'s warm-up `get` of the homepage (duration
`d2`, issued with no `_rate_limit`); the retry `get url` (duration `d3`,
also issued with no `_rate_limit`).  Each event is `(start, end)`. -/
def fetch403Trace (s : RL) (now d1 d2 d3 : Nat) : List (Nat × Nat) × RL :=
  let p := rateLimit now s
  let e1 := p.1 + d1
  let e2 := e1 + d2
  let e3 := e2 + d3
  ([(p.1, e1), (e1, e2), (e2, e3)], p.2)

/-- The pacing discipline the spec asserts: every request starts at least
`delay` after the previous one ended. -/
def gapsOk (delay : Nat) : List (Nat × Nat) → Bool
  | (_, e) :: (s₂, e₂) :: rest => decide (e + delay ≤ s₂) && gapsOk delay ((s₂, e₂) :: rest)
  | _ => true

/-! ## Concrete pages and fetch behaviours used to instantiate theorems -/

/-- A page whose availability meta tag says `InStock` while the body text
says the opposite. -/
def docInStockMeta : Doc :=
  { metaAvailability := some "InStock",
    pageText := "Sorry, this item is out of stock and sold out everywhere",
    stickyButtons := none, links := [], selOne := fun _ => none }

/-- A page with no sticky container whose body text indicates in-stock. -/
def docInStockText : Doc :=
  { metaAvailability := none, pageText := "Great news, this set is in stock today",
    stickyButtons := none, links := [], selOne := fun _ => none }

/-- A page whose sticky container holds a purchase button with an `x` in its
label (`Add to Box`) followed by a clean purchase button. -/
def docButtonX : Doc :=
  { metaAvailability := none, pageText := "in stock",
    stickyButtons := some [⟨"Add to Box", "", ""⟩, ⟨"Add to Bag", "", ""⟩],
    links := [], selOne := fun _ => none }

/-- A fetch behaviour where every request raises. -/
def fbFail : FetchBehavior :=
  { first := fun _ => FetchOutcome.exn "boom", retry := fun _ => FetchOutcome.exn "boom" }

/-- A fetch behaviour where candidate 1 of set `10312` answers 403 on both
the original and the recreated session, and candidate 2 answers 200 with
`docInStockMeta`. -/
def fb403 : FetchBehavior :=
  { first := fun url =>
      if url = candidate1 "10312" then FetchOutcome.resp ⟨403, docInStockMeta⟩
      else if url = candidate2 "10312" then FetchOutcome.resp ⟨200, docInStockMeta⟩
      else FetchOutcome.exn "not fetched",
    retry := fun url =>
      if url = candidate1 "10312" then FetchOutcome.resp ⟨403, docInStockMeta⟩
      else FetchOutcome.exn "not fetched" }

/-- A stock result as `check_stock` reports for an in-stock page. -/
def resultInStock : StockResult :=
  { available := true, status := Status.in_stock, set_name := "LEGO Set 10312",
    price := some "$229.99", url := "u", message := "In Stock", button_detected := none }

/-! # Theorems -/

/-! ## Classifier lemmas -/

/-- Every tier of the text fallback attaches the independently computed
button value. -/
theorem textTiers_button (doc : Doc) (pt : String) (b : Option String) :
    (textTiers doc pt b).button_detected = b := by
  unfold textTiers
  repeat' split
  all_goals rfl

/-- `_check_stock_status` attaches `_detect_button`'s result to whichever
tier matched. -/
theorem checkStockStatus_button (doc : Doc) :
    (checkStockStatus doc).button_detected = detectButton doc := by
  unfold checkStockStatus
  dsimp only
  repeat' split
  all_goals first
    | rfl
    | exact textTiers_button ..

/-- The text fallback never yields the ERROR status. -/
theorem textTiers_ne_error (doc : Doc) (pt : String) (b : Option String) :
    (textTiers doc pt b).status ≠ Status.error := by
  unfold textTiers
  repeat' split
  all_goals simp

/-- The classifier never yields the ERROR status. -/
theorem checkStockStatus_ne_error (doc : Doc) :
    (checkStockStatus doc).status ≠ Status.error := by
  unfold checkStockStatus
  dsimp only
  repeat' split
  all_goals first
    | apply textTiers_ne_error
    | simp

/-! ## C2: meta tag tier wins -/

/-- C2: whenever the `product:availability` meta tag content contains
`"in stock"` or `"instock"` (case-insensitive substring), `_check_stock_status`
returns status IN_STOCK with `available = true`, whatever the body text says. -/
theorem meta_instock_overrides_body (doc : Doc) (c : String)
    (hm : doc.metaAvailability = some c)
    (hc : strContains (lowerStr c) "in stock" = true ∨ strContains (lowerStr c) "instock" = true) :
    (checkStockStatus doc).status = Status.in_stock ∧
    (checkStockStatus doc).available = true := by
  unfold checkStockStatus
  rw [hm]
  dsimp only
  rcases hc with h | h <;> simp [h]

/-- Witness for C2 at a concrete page: meta content `"InStock"`, body text
claiming out-of-stock. -/
theorem meta_instock_overrides_body_witness :
    (checkStockStatus docInStockMeta).status = Status.in_stock ∧
    (checkStockStatus docInStockMeta).available = true :=
  meta_instock_overrides_body docInStockMeta "InStock" rfl (Or.inr (by decide))

/-! ## C9: absent sticky container means no button -/

/-- C9: when the `add-to-bag-sticky-container` is absent, the classifier's
result carries `buttonDetected = none`, regardless of the rest of the page. -/
theorem no_container_no_button (doc : Doc) (h : doc.stickyButtons = none) :
    (checkStockStatus doc).button_detected = none := by
  rw [checkStockStatus_button]
  unfold detectButton
  rw [h]

/-- Witness for C9 at a concrete page whose body text classifies as
IN_STOCK but which has no sticky container. -/
theorem no_container_no_button_witness :
    (checkStockStatus docInStockText).button_detected = none ∧
    (checkStockStatus docInStockText).status = Status.in_stock :=
  ⟨no_container_no_button docInStockText rfl, by decide⟩

/-! ## C10: the `x` negative keyword -/

/-- One unfolding step of the `_detect_button` loop. -/
theorem detectLoop_cons (b : Button) (rest : List Button) :
    detectLoop (b :: rest) =
      if skipKeywords.any (fun k =>
          strContains (lowerStr b.text) k || strContains (lowerStr b.aria) k) then
        detectLoop rest
      else if purchaseKeywords.any (fun k => strContains (lowerStr b.text) k) ||
              purchaseKeywords.any (fun k => strContains (lowerStr b.aria) k) ||
              strContains (lowerStr b.dataTest) "add-to-cart" then
        if b.text ≠ "" then some b.text
        else if b.aria ≠ "" then some b.aria
        else detectLoop rest
      else detectLoop rest := rfl

/-- A button not skipped by the negative-keyword check has no `x` in its
lowered text or aria-label. -/
theorem not_skipped_x_free (b : Button)
    (hskip : ¬(skipKeywords.any fun k =>
        strContains (lowerStr b.text) k || strContains (lowerStr b.aria) k) = true) :
    strContains (lowerStr b.text) "x" = false ∧ strContains (lowerStr b.aria) "x" = false := by
  simp only [skipKeywords, List.any_cons, List.any_nil, Bool.or_eq_true,
    not_or, Bool.not_eq_true] at hskip
  rcases hskip with ⟨-, -, -, -, hx, -⟩
  simpa [Bool.or_eq_false_iff] using hx

/-- Whatever string the loop returns comes from a button of the list that is
free of `x` in both label fields. -/
theorem detectLoop_some_x_free (bs : List Button) (s : String)
    (hdet : detectLoop bs = some s) :
    ∃ b ∈ bs, strContains (lowerStr b.text) "x" = false ∧
      strContains (lowerStr b.aria) "x" = false ∧ (s = b.text ∨ s = b.aria) := by
  induction bs with
  | nil => simp [detectLoop] at hdet
  | cons b rest ih =>
    rw [detectLoop_cons] at hdet
    split at hdet
    · rcases ih hdet with ⟨b', hb', hprop⟩
      exact ⟨b', List.mem_cons_of_mem b hb', hprop⟩
    · rename_i hskip
      have hxfree := not_skipped_x_free b hskip
      split at hdet
      · split at hdet
        · exact ⟨b, List.mem_cons_self b rest,
            hxfree.1, hxfree.2, Or.inl (Option.some.inj hdet).symm⟩
        · split at hdet
          · exact ⟨b, List.mem_cons_self b rest,
              hxfree.1, hxfree.2, Or.inr (Option.some.inj hdet).symm⟩
          · rcases ih hdet with ⟨b', hb', hprop⟩
            exact ⟨b', List.mem_cons_of_mem b hb', hprop⟩
      · rcases ih hdet with ⟨b', hb', hprop⟩
        exact ⟨b', List.mem_cons_of_mem b hb', hprop⟩

/-- C10: `_detect_button` skips every button whose (lowered) text or
aria-label contains the letter `x`, and consequently whatever button text it
does return comes from a button free of `x` in both fields. -/
theorem button_x_never_returned :
    (∀ (b : Button) (rest : List Button),
        (strContains (lowerStr b.text) "x" = true ∨ strContains (lowerStr b.aria) "x" = true) →
        detectLoop (b :: rest) = detectLoop rest) ∧
    (∀ (doc : Doc) (bs : List Button) (s : String),
        doc.stickyButtons = some bs → detectButton doc = some s →
        ∃ b ∈ bs, strContains (lowerStr b.text) "x" = false ∧
          strContains (lowerStr b.aria) "x" = false ∧ (s = b.text ∨ s = b.aria)) := by
  constructor
  · intro b rest h
    rw [detectLoop_cons]
    have hx : (skipKeywords.any fun k =>
        strContains (lowerStr b.text) k || strContains (lowerStr b.aria) k) = true := by
      simp only [skipKeywords, List.any_cons, List.any_nil, Bool.or_eq_true]
      rcases h with h | h <;> simp [h]
    rw [if_pos hx]
  · intro doc bs s hdoc hdet
    unfold detectButton at hdet
    rw [hdoc] at hdet
    dsimp only at hdet
    split at hdet
    · exact absurd hdet (by simp)
    · exact detectLoop_some_x_free bs s hdet

/-- Witness for C10: on a page whose sticky container holds `Add to Box`
(skipped because of the `x`) before `Add to Bag`, detection returns a
button, and that button is `x`-free. -/
theorem button_x_never_returned_witness :
    (detectLoop [⟨"Add to Box", "", ""⟩, ⟨"Add to Bag", "", ""⟩] =
      detectLoop [⟨"Add to Bag", "", ""⟩]) ∧
    ∃ b ∈ docButtonX.stickyButtons.getD [],
      strContains (lowerStr b.text) "x" = false ∧
        strContains (lowerStr b.aria) "x" = false ∧
        ("Add to Bag" = b.text ∨ "Add to Bag" = b.aria) :=
  ⟨button_x_never_returned.1 ⟨"Add to Box", "", ""⟩ [⟨"Add to Bag", "", ""⟩]
      (Or.inl (by decide)),
   button_x_never_returned.2 docButtonX
      [⟨"Add to Box", "", ""⟩, ⟨"Add to Bag", "", ""⟩] "Add to Bag" rfl (by decide)⟩

/-! ## C5: the poll-cycle diff rule -/

/-- C5: for every watch row and check result, `_check_watch` (i) always
persists the new `(status, available, button)` triple, (ii) emits nothing on
a first-ever check, (iii) emits exactly one status-change notification when
the stored status is set and differs, and (iv) emits exactly one
button-change notification (and no status notification) when the status is
unchanged and the button went from `none` to some value. -/
theorem poll_diff_rule (w : WatchRow) (result : StockResult) :
    ((checkWatch w result).1 =
      ⟨w.id, result.status, result.available, result.button_detected⟩) ∧
    (w.lastStatus = none → (checkWatch w result).2 = []) ∧
    (∀ last, w.lastStatus = some last → last ≠ result.status →
      (checkWatch w result).2 = [Notif.statusChange last result.status]) ∧
    (∀ b, w.lastStatus = some result.status → w.lastButton = none →
      result.button_detected = some b →
      (checkWatch w result).2 = [Notif.buttonChange none (some b)]) := by
  refine ⟨?_, ?_, ?_, ?_⟩
  · unfold checkWatch
    dsimp only
    repeat' split
    all_goals rfl
  · intro h
    unfold checkWatch
    rw [h]
  · intro last hlast hne
    unfold checkWatch
    rw [hlast]
    dsimp only
    have hsc : (Option.isSome (some last) &&
        decide (¬some last = some result.status)) = true := by
      simp [hne]
    rw [if_pos hsc]
  · intro b hlast hbtn hcur
    unfold checkWatch
    rw [hlast, hbtn, hcur]
    dsimp only
    simp [sendButtonNotification]

/-- Witness for C5 at the spec's three concrete scenarios. -/
theorem poll_diff_rule_witness :
    (checkWatch ⟨1, 7, none, "10312", none, none⟩ resultInStock).2 = [] ∧
    (checkWatch ⟨1, 7, none, "10312", some Status.out_of_stock, none⟩ resultInStock).2 =
      [Notif.statusChange Status.out_of_stock Status.in_stock] ∧
    (checkWatch ⟨1, 7, none, "10312", some Status.in_stock, none⟩
        { resultInStock with button_detected := some "Add to Bag" }).2 =
      [Notif.buttonChange none (some "Add to Bag")] :=
  ⟨(poll_diff_rule ⟨1, 7, none, "10312", none, none⟩ resultInStock).2.1 rfl,
   (poll_diff_rule ⟨1, 7, none, "10312", some Status.out_of_stock, none⟩
       resultInStock).2.2.1 Status.out_of_stock rfl (by decide),
   (poll_diff_rule ⟨1, 7, none, "10312", some Status.in_stock, none⟩
       { resultInStock with button_detected := some "Add to Bag" }).2.2.2
     "Add to Bag" rfl rfl rfl⟩

/-! ## C6: button transitions that are not notified -/

/-- Counterexample to C6: a watch whose stored button is `"Add to Bag"`
while the new check carries no button (status unchanged) *does* produce a
notification — the some→none transition is notified, contrary to the claim. -/
theorem some_to_none_notifies :
    (checkWatch ⟨1, 7, none, "10312", some Status.in_stock, some "Add to Bag"⟩
        resultInStock).2 =
      [Notif.buttonChange (some "Add to Bag") none] ∧
    (checkWatch ⟨1, 7, none, "10312", some Status.in_stock, some "Add to Bag"⟩
        resultInStock).2 ≠ [] := by
  constructor <;> decide

/-- C6 as amended: with the stored status set and unchanged, an unchanged
button value produces no notification, but a button transition from some
value to `none` produces exactly one button-change notification. -/
theorem button_unchanged_silent (w : WatchRow) (result : StockResult) :
    (w.lastStatus = some result.status → w.lastButton = result.button_detected →
      (checkWatch w result).2 = []) ∧
    (∀ b, w.lastStatus = some result.status → w.lastButton = some b →
      result.button_detected = none →
      (checkWatch w result).2 = [Notif.buttonChange (some b) none]) := by
  constructor
  · intro hlast hbtn
    unfold checkWatch
    rw [hlast, hbtn]
    dsimp only
    simp
  · intro b hlast hbtn hcur
    unfold checkWatch
    rw [hlast, hbtn, hcur]
    dsimp only
    simp [sendButtonNotification]

/-- Witness for the amended C6 at concrete rows. -/
theorem button_unchanged_silent_witness :
    (checkWatch ⟨1, 7, none, "10312", some Status.in_stock, none⟩ resultInStock).2 = [] ∧
    (checkWatch ⟨2, 7, none, "10312", some Status.in_stock, some "Add to Bag"⟩
        resultInStock).2 = [Notif.buttonChange (some "Add to Bag") none] :=
  ⟨(button_unchanged_silent ⟨1, 7, none, "10312", some Status.in_stock, none⟩
      resultInStock).1 rfl rfl,
   (button_unchanged_silent ⟨2, 7, none, "10312", some Status.in_stock, some "Add to Bag"⟩
      resultInStock).2 "Add to Bag" rfl rfl rfl⟩

/-! ## C7: `add_watch` called twice -/

/-- C7 (code bug evidence): with a non-null guild, adding the same
`(user, guild, set)` twice leaves exactly one row, but the second call
returns `true` — it reports success, not "already exists", contradicting
`add_watch`'s own docstring ("False if already exists") and the caller in
`bot.py` that uses `False` to mean "already in your watchlist".
With a null guild the behaviour is worse still: the `UNIQUE` constraint
never fires (SQL `NULL`s are distinct) so duplicates accumulate, and the
`COUNT(*)` check (`guild_id = NULL`) matches nothing, so even a first,
successful add returns `false`. -/
theorem addWatch_duplicate_reports_success :
    ((addWatch (addWatch [] 1 "10312" (some 2)).1 1 "10312" (some 2)).1.length = 1 ∧
     (addWatch (addWatch [] 1 "10312" (some 2)).1 1 "10312" (some 2)).2 = true) ∧
    ((addWatch (addWatch [] 1 "10312" none).1 1 "10312" none).1.length = 2 ∧
     (addWatch [] 1 "10312" none).2 = false) := by
  refine ⟨⟨?_, ?_⟩, ?_, ?_⟩ <;> decide

/-! ## C8: request pacing -/

/-- Counterexample to C8: on the 403 path of `_fetch_product_page` the
warm-up request and the retry request are issued immediately after the
previous request ends (gap 0, below the 2-second minimum), because neither
passes through `_rate_limit`. -/
theorem rate_limit_gap_counterexample :
    (fetch403Trace ⟨2, 0⟩ 10 1 1 1).1 = [(10, 11), (11, 12), (12, 13)] ∧
    gapsOk 2 (fetch403Trace ⟨2, 0⟩ 10 1 1 1).1 = false := by
  constructor <;> decide

/-- C8 as amended: `_rate_limit` alone enforces the pacing, and what it
guarantees is that a rate-limited request starts no earlier than `delay`
after the *recorded start* of the previous rate-limited request (the
timestamp taken just before that request was issued, not when it ended);
two consecutive rate-limited requests therefore start at least `delay`
apart, whatever the clock readings. -/
theorem rate_limit_start_spacing (s : RL) (t₁ t₂ : Nat) :
    s.last + s.delay ≤ (rateLimit t₁ s).1 ∧
    (rateLimit t₁ s).2.last = (rateLimit t₁ s).1 ∧
    (rateLimit t₁ s).2.delay = s.delay ∧
    (rateLimit t₁ s).1 + s.delay ≤ (rateLimit t₂ (rateLimit t₁ s).2).1 := by
  unfold rateLimit
  repeat' split
  all_goals simp_all

/-! ## Fetch-layer lemmas -/

/-- When the fetch body raised, `_fetch_product_page` returns an error dict:
status ERROR, not available, no button. -/
theorem fetchPageBody_error_result (fb : FetchBehavior) (url code e : String)
    (h : fetchPageBody fb url = Except.error e) :
    (fetchProductPage fb url code).status = Status.error ∧
    (fetchProductPage fb url code).available = false ∧
    (fetchProductPage fb url code).button_detected = none := by
  unfold fetchProductPage
  rw [h]
  dsimp only
  split <;> exact ⟨rfl, rfl, rfl⟩

/-- `_fetch_product_page` reports ERROR exactly when its body raised. -/
theorem fetchProductPage_error_iff (fb : FetchBehavior) (url code : String) :
    (fetchProductPage fb url code).status = Status.error ↔
      ∃ e, fetchPageBody fb url = Except.error e := by
  constructor
  · intro hst
    cases h : fetchPageBody fb url with
    | ok doc =>
      unfold fetchProductPage at hst
      rw [h] at hst
      exact absurd hst (checkStockStatus_ne_error doc)
    | error e => exact ⟨e, rfl⟩
  · rintro ⟨e, he⟩
    exact (fetchPageBody_error_result fb url code e he).1

/-- One unfolding step of the candidate loop. -/
theorem tryCandidates_cons (fb : FetchBehavior) (code url : String) (rest : List String) :
    tryCandidates fb code (url :: rest) =
      if (fetchProductPage fb url code).status ≠ Status.error then
        (some (fetchProductPage fb url code), [url])
      else
        ((tryCandidates fb code rest).1, url :: (tryCandidates fb code rest).2) := rfl

/-- The candidate loop returns nothing exactly when every candidate
classified to ERROR. -/
theorem tryCandidates_none_iff (fb : FetchBehavior) (code : String) (urls : List String) :
    (tryCandidates fb code urls).1 = none ↔
      ∀ u ∈ urls, (fetchProductPage fb u code).status = Status.error := by
  induction urls with
  | nil => simp [tryCandidates]
  | cons url rest ih =>
    rw [tryCandidates_cons]
    by_cases h : (fetchProductPage fb url code).status = Status.error
    · rw [if_neg (by simp [h])]
      simp only [List.mem_cons]
      constructor
      · intro ho u hu
        rcases hu with rfl | hu
        · exact h
        · exact (ih.1 ho) u hu
      · intro hall
        exact ih.2 fun u hu => hall u (Or.inr hu)
    · rw [if_pos h]
      simp only [List.mem_cons]
      constructor
      · intro ho; cases ho
      · intro hall; exact absurd (hall url (Or.inl rfl)) h

/-- A result returned early by the candidate loop is not an ERROR result. -/
theorem tryCandidates_some_ne_error (fb : FetchBehavior) (code : String)
    (urls : List String) (r : StockResult)
    (h : (tryCandidates fb code urls).1 = some r) : r.status ≠ Status.error := by
  induction urls with
  | nil => simp [tryCandidates] at h
  | cons url rest ih =>
    rw [tryCandidates_cons] at h
    split at h
    · rename_i hne
      cases h
      exact hne
    · exact ih h

/-- `check_stock` reports ERROR exactly when every candidate classification
was ERROR and, should the search fallback have produced a URL, that page's
classification was ERROR as well; and every ERROR result of `check_stock`
is not available and carries no button. -/
theorem checkStock_error_char (fb : FetchBehavior) (code : String) :
    ((checkStock fb code).status = Status.error ↔
      ((∀ u ∈ productUrls (pyStrip code),
          (fetchProductPage fb u (pyStrip code)).status = Status.error) ∧
       (∀ surl, searchForSet fb (pyStrip code) = some surl →
          (fetchProductPage fb surl (pyStrip code)).status = Status.error))) ∧
    ((checkStock fb code).status = Status.error →
      (checkStock fb code).available = false ∧
      (checkStock fb code).button_detected = none) := by
  unfold checkStock checkStockTraced
  dsimp only
  rcases htc : tryCandidates fb (pyStrip code) (productUrls (pyStrip code)) with ⟨o, tr⟩
  cases o with
  | some r =>
    dsimp only
    have hne : r.status ≠ Status.error :=
      tryCandidates_some_ne_error fb (pyStrip code) (productUrls (pyStrip code)) r
        (by rw [htc])
    refine ⟨⟨fun hst => absurd hst hne, ?_⟩, fun hst => absurd hst hne⟩
    rintro ⟨hall, -⟩
    have hnone : (tryCandidates fb (pyStrip code) (productUrls (pyStrip code))).1 = none :=
      (tryCandidates_none_iff fb (pyStrip code) (productUrls (pyStrip code))).2 hall
    rw [htc] at hnone
    cases hnone
  | none =>
    dsimp only
    have hall : ∀ u ∈ productUrls (pyStrip code),
        (fetchProductPage fb u (pyStrip code)).status = Status.error :=
      (tryCandidates_none_iff fb (pyStrip code) (productUrls (pyStrip code))).1
        (by rw [htc])
    cases hs : searchForSet fb (pyStrip code) with
    | some surl =>
      dsimp only
      by_cases hr : (fetchProductPage fb surl (pyStrip code)).status = Status.error
      · rw [if_neg (by simp [hr])]
        refine ⟨⟨fun _ => ⟨hall, ?_⟩, fun _ => rfl⟩, fun _ => ⟨rfl, rfl⟩⟩
        intro surl' hsurl'
        cases hsurl'
        exact hr
      · rw [if_pos hr]
        refine ⟨⟨fun hst => absurd hst hr, ?_⟩, fun hst => absurd hst hr⟩
        rintro ⟨-, hsearch⟩
        exact absurd (hsearch surl rfl) hr
    | none =>
      dsimp only
      refine ⟨⟨fun _ => ⟨hall, ?_⟩, fun _ => rfl⟩, fun _ => ⟨rfl, rfl⟩⟩
      intro surl hsurl
      cases hsurl

/-! ## C1: ERROR exactly on fetch/parse failure -/

/-- C1: the classifier never produces ERROR; `check_stock` reports ERROR
exactly when no page could be fetched and parsed (every candidate's fetch
body raised, and the search fallback's page — if any — raised too); and
every ERROR result has `available = false` and `buttonDetected = none`. -/
theorem error_iff_fetch_failed :
    (∀ doc : Doc, (checkStockStatus doc).status ≠ Status.error) ∧
    ∀ (fb : FetchBehavior) (code : String),
      ((checkStock fb code).status = Status.error ↔
        ((∀ u ∈ productUrls (pyStrip code), ∃ e, fetchPageBody fb u = Except.error e) ∧
         (∀ surl, searchForSet fb (pyStrip code) = some surl →
            ∃ e, fetchPageBody fb surl = Except.error e))) ∧
      ((checkStock fb code).status = Status.error →
        (checkStock fb code).available = false ∧
        (checkStock fb code).button_detected = none) := by
  refine ⟨checkStockStatus_ne_error, fun fb code => ⟨?_, (checkStock_error_char fb code).2⟩⟩
  rw [(checkStock_error_char fb code).1]
  constructor
  · rintro ⟨h1, h2⟩
    exact ⟨fun u hu => (fetchProductPage_error_iff fb u (pyStrip code)).1 (h1 u hu),
           fun surl hs => (fetchProductPage_error_iff fb surl (pyStrip code)).1 (h2 surl hs)⟩
  · rintro ⟨h1, h2⟩
    exact ⟨fun u hu => (fetchProductPage_error_iff fb u (pyStrip code)).2 (h1 u hu),
           fun surl hs => (fetchProductPage_error_iff fb surl (pyStrip code)).2 (h2 surl hs)⟩

/-- Witness for C1: with every request raising, `check_stock` reports ERROR,
not available, no button. -/
theorem error_iff_fetch_failed_witness :
    (checkStock fbFail "10312").status = Status.error ∧
    (checkStock fbFail "10312").available = false ∧
    (checkStock fbFail "10312").button_detected = none := by
  have hst : (checkStock fbFail "10312").status = Status.error := by decide
  exact ⟨hst, (error_iff_fetch_failed.2 fbFail "10312").2 hst⟩

/-! ## C4: `check_stock` never raises -/

theorem fetchProductPageE_ok (fb : FetchBehavior) (url code : String) :
    fetchProductPageE fb url code = Except.ok (fetchProductPage fb url code) := by
  unfold fetchProductPageE fetchProductPage
  cases fetchPageBody fb url with
  | ok doc => rfl
  | error msg =>
    dsimp only
    split <;> rfl

theorem searchForSetE_ok (fb : FetchBehavior) (code : String) :
    searchForSetE fb code = Except.ok (searchForSet fb code) := by
  unfold searchForSetE searchForSet
  cases searchBody fb code <;> rfl

theorem tryCandidatesE_ok (fb : FetchBehavior) (code : String) (urls : List String) :
    tryCandidatesE fb code urls = Except.ok (tryCandidates fb code urls).1 := by
  induction urls with
  | nil => rfl
  | cons url rest ih =>
    show (do
      let r ← fetchProductPageE fb url code
      if r.status ≠ Status.error then pure (some r)
      else tryCandidatesE fb code rest) = _
    rw [fetchProductPageE_ok, tryCandidates_cons]
    show (if (fetchProductPage fb url code).status ≠ Status.error then
        pure (some (fetchProductPage fb url code))
      else tryCandidatesE fb code rest) = _
    split
    · rfl
    · rw [ih]

/-- C4: the exception-transparent transcription of `check_stock` returns
`ok` — never an uncaught exception — for every fetch behaviour and target
code, with exactly the value of the direct embedding; and whenever a page
fetch's body raised, the corresponding per-page result resolved to an ERROR
`StockResult` (not available, no button). -/
theorem checkStock_never_raises (fb : FetchBehavior) (code : String) :
    checkStockE fb code = Except.ok (checkStock fb code) ∧
    (∀ url e, fetchPageBody fb url = Except.error e →
      (fetchProductPage fb url code).status = Status.error ∧
      (fetchProductPage fb url code).available = false ∧
      (fetchProductPage fb url code).button_detected = none) := by
  refine ⟨?_, fun url e he => fetchPageBody_error_result fb url code e he⟩
  unfold checkStockE checkStock checkStockTraced
  dsimp only
  rw [tryCandidatesE_ok]
  show (match (tryCandidates fb (pyStrip code) (productUrls (pyStrip code))).1 with
    | some r => pure r
    | none => do
      let s ← searchForSetE fb (pyStrip code)
      match s with
      | some surl => do
        let r ← fetchProductPageE fb surl (pyStrip code)
        if r.status ≠ Status.error then pure r
        else pure (fallbackError (pyStrip code) (productUrls (pyStrip code)))
      | none => pure (fallbackError (pyStrip code) (productUrls (pyStrip code)))) = _
  rcases htc : tryCandidates fb (pyStrip code) (productUrls (pyStrip code)) with ⟨o, tr⟩
  cases o with
  | some r => rfl
  | none =>
    dsimp only
    rw [searchForSetE_ok]
    show (match searchForSet fb (pyStrip code) with
      | some surl => do
        let r ← fetchProductPageE fb surl (pyStrip code)
        if r.status ≠ Status.error then pure r
        else pure (fallbackError (pyStrip code) (productUrls (pyStrip code)))
      | none => pure (fallbackError (pyStrip code) (productUrls (pyStrip code)))) = _
    cases searchForSet fb (pyStrip code) with
    | none => rfl
    | some surl =>
      dsimp only
      rw [fetchProductPageE_ok]
      show (if (fetchProductPage fb surl (pyStrip code)).status ≠ Status.error then
          pure (fetchProductPage fb surl (pyStrip code))
        else pure (fallbackError (pyStrip code) (productUrls (pyStrip code)))) = _
      split <;> rfl

/-- Witness for C4: a raising fetch behaviour still yields an `ok` ERROR
result. -/
theorem checkStock_never_raises_witness :
    checkStockE fbFail "10312" = Except.ok (checkStock fbFail "10312") ∧
    (fetchProductPage fbFail (candidate1 "10312") "10312").status = Status.error :=
  ⟨(checkStock_never_raises fbFail "10312").1,
   ((checkStock_never_raises fbFail "10312").2 (candidate1 "10312") "boom" rfl).1⟩

/-! ## C3: the candidate fallback short-circuits -/

theorem candidate_lengths (c : String) :
    (candidate1 c).length = 35 + c.length ∧
    (candidate2 c).length = 44 + c.length ∧
    (candidate3 c).length = 29 + c.length ∧
    (searchUrlOf c).length = 36 + c.length := by
  refine ⟨?_, ?_, ?_, ?_⟩ <;>
    simp only [candidate1, candidate2, candidate3, searchUrlOf, baseUrl,
      String.length_append] <;>
    rw [show ("https://www.lego.com" : String).length = 20 from rfl]
  · rw [show ("/en-us/product/" : String).length = 15 from rfl]
  · rw [show ("/en-us/product/lego-set-" : String).length = 24 from rfl]
  · rw [show ("/product/" : String).length = 9 from rfl]
  · rw [show ("/en-us/search?q=" : String).length = 16 from rfl]

/-- The third candidate URL and the search URL differ from the first two
candidate URLs (their lengths differ for every code). -/
theorem candidate_urls_distinct (c : String) :
    candidate3 c ≠ candidate1 c ∧ candidate3 c ≠ candidate2 c ∧
    searchUrlOf c ≠ candidate1 c ∧ searchUrlOf c ≠ candidate2 c := by
  obtain ⟨h1, h2, h3, h4⟩ := candidate_lengths c
  refine ⟨fun h => ?_, fun h => ?_, fun h => ?_, fun h => ?_⟩ <;>
    have hlen := congrArg String.length h
  · rw [h3, h1] at hlen; omega
  · rw [h3, h2] at hlen; omega
  · rw [h4, h1] at hlen; omega
  · rw [h4, h2] at hlen; omega

/-- C3: if candidate 1's fetch raised with a FORBIDDEN (403) message and
candidate 2's fetch+parse succeeded, `check_stock` returns exactly candidate
2's classification, and neither candidate 3 nor the search fallback is ever
fetched. -/
theorem forbidden_candidate_falls_through (fb : FetchBehavior) (code msg : String)
    (doc : Doc)
    (h1 : fetchPageBody fb (candidate1 (pyStrip code)) = Except.error msg)
    (_h403 : strContains msg "403" = true ∨ strContains msg "Forbidden" = true)
    (h2 : fetchPageBody fb (candidate2 (pyStrip code)) = Except.ok doc) :
    checkStockTraced fb code =
      (fetchProductPage fb (candidate2 (pyStrip code)) (pyStrip code),
        [candidate1 (pyStrip code), candidate2 (pyStrip code)]) ∧
    candidate3 (pyStrip code) ∉ (checkStockTraced fb code).2 ∧
    searchUrlOf (pyStrip code) ∉ (checkStockTraced fb code).2 := by
  have hr1 : (fetchProductPage fb (candidate1 (pyStrip code)) (pyStrip code)).status =
      Status.error :=
    (fetchPageBody_error_result fb (candidate1 (pyStrip code)) (pyStrip code) msg h1).1
  have hr2 : (fetchProductPage fb (candidate2 (pyStrip code)) (pyStrip code)).status ≠
      Status.error := by
    intro hst
    rcases (fetchProductPage_error_iff fb (candidate2 (pyStrip code)) (pyStrip code)).1 hst
      with ⟨e, he⟩
    rw [h2] at he
    cases he
  have htrace : checkStockTraced fb code =
      (fetchProductPage fb (candidate2 (pyStrip code)) (pyStrip code),
        [candidate1 (pyStrip code), candidate2 (pyStrip code)]) := by
    unfold checkStockTraced productUrls
    dsimp only
    rw [tryCandidates_cons, if_neg (by simp [hr1]), tryCandidates_cons, if_pos hr2]
  obtain ⟨d1, d2, d3, d4⟩ := candidate_urls_distinct (pyStrip code)
  refine ⟨htrace, ?_, ?_⟩ <;> rw [htrace] <;> simp [d1, d2, d3, d4]

/-- Witness for C3 with the concrete 403-then-success fetch behaviour. -/
theorem forbidden_candidate_falls_through_witness :
    checkStockTraced fb403 "10312" =
      (fetchProductPage fb403 (candidate2 (pyStrip "10312")) (pyStrip "10312"),
        [candidate1 (pyStrip "10312"), candidate2 (pyStrip "10312")]) ∧
    candidate3 (pyStrip "10312") ∉ (checkStockTraced fb403 "10312").2 ∧
    searchUrlOf (pyStrip "10312") ∉ (checkStockTraced fb403 "10312").2 :=
  forbidden_candidate_falls_through fb403 "10312"
    (raiseMsg 403 (candidate1 (pyStrip "10312"))) docInStockMeta rfl
    (Or.inl (by decide)) rfl

end LegoBot
